import Mathlib

/-!
# Verification of the AWS cost-report generation pipeline

Shallow embedding of `lambda-functions/generate-cost-report/app.py`:
the pricing-data normalizer (`CostAnalysisHelper.parse_pricing_data`),
the cost-table builder (`generate_cost_table`), the recommendation engine
(`generate_well_architected_recommendations`), the markdown and CSV
renderers, and the Lambda boundary handler (`lambda_handler`).

Modelling conventions:
* Python strings are `String` (ASCII scope: `lower()`, `title()` and the
  regex character classes are modelled for ASCII text, which covers all
  data the program manipulates).
* Python floats are exact rationals `ℚ`; `f'{x:.2f}'` is modelled as exact
  half-up rounding to cents of the rational value.
* Python dicts (which preserve insertion order) are association lists
  `List (String × α)`; assignment to an existing key keeps its position.
* The three regular expressions of the scraped-text strategy are embedded
  as explicit scanning functions with Python `re` semantics (leftmost
  match, ordered alternation, greedy/lazy quantifiers as they appear).
* `json.loads` is external library code: each element of a structured
  `pricing_data['data']` list is represented by its decode outcome
  (`RecordItem.json none` = a string raising `JSONDecodeError`,
  `RecordItem.json (some j)` = a string decoding to the value `j`,
  `RecordItem.nonString` = a non-string element, skipped by the
  `isinstance` guard).
* Exceptions are `Except`: `PyErr.keyError` is the error caught per
  record by `except (json.JSONDecodeError, KeyError)`, everything else
  propagates to the boundary handler's `except Exception`.
-/

namespace AwsCostReport

/-! ## Python string helpers (ASCII scope) -/

/-- Python `\s` (ASCII): space, tab, newline, carriage return, vertical tab, form feed. -/
def isPySpace (c : Char) : Bool :=
  c = ' ' || c = '\t' || c = '\n' || c = '\r' || c = '\x0b' || c = '\x0c'

/-- Python regex `\w` (ASCII): letters, digits, underscore. -/
def isWordChar (c : Char) : Bool := c.isAlphanum || c = '_'

/-- The character class `[\w\s-]` used by the price-line patterns. -/
def isUnitClass (c : Char) : Bool := isWordChar c || isPySpace c || c = '-'

/-- The character class `[\d,.]` used for the price group of the price-line patterns. -/
def isPriceClass (c : Char) : Bool := c.isDigit || c = ',' || c = '.'

/-- `str.strip()`: remove leading and trailing whitespace. -/
def pyStrip (cs : List Char) : List Char :=
  ((cs.dropWhile isPySpace).reverse.dropWhile isPySpace).reverse

/-- `str.title()` (ASCII): uppercase each letter that follows a non-letter,
lowercase the rest. -/
def pyTitleAux : Bool → List Char → List Char
  | _, [] => []
  | prev, c :: cs =>
    if c.isAlpha then
      (if prev then c.toLower else c.toUpper) :: pyTitleAux true cs
    else
      c :: pyTitleAux false cs

/-- `str.title()` on `String`. -/
def pyTitle (s : String) : String := ⟨pyTitleAux false s.toList⟩

/-- `str.lower()` (ASCII). -/
def pyLower (s : String) : String := ⟨s.toList.map Char.toLower⟩

/-- Case-insensitive "needle is a literal prefix of hay". -/
def isPrefixOfCI (pat s : List Char) : Bool :=
  (pat.map Char.toLower).isPrefixOf (s.map Char.toLower)

/-- Substring test (`needle in hay` on Python strings). -/
def containsSub (needle : List Char) : List Char → Bool
  | [] => needle.isEmpty
  | c :: rest => needle.isPrefixOf (c :: rest) || containsSub needle rest

/-! ## Python `float(...)` and `f'{x:.2f}'` -/

/-- Numeric value of a list of decimal digits. -/
def digitsToNat (ds : List Char) : ℕ :=
  ds.foldl (fun a c => a * 10 + (c.toNat - 48)) 0

/-- Parse the unsigned body of a Python float literal:
`digits [. digits] [(e|E) [+|-] digits]` (at least one digit in the
mantissa). `inf`, `nan` and `_` separators are not modelled; no price
string of this program contains them. -/
def pyFloatCore (cs : List Char) : Option ℚ :=
  let ip := cs.takeWhile Char.isDigit
  let r1 := cs.drop ip.length
  let fp :=
    match r1 with
    | '.' :: r => r.takeWhile Char.isDigit
    | _ => []
  let r2 :=
    match r1 with
    | '.' :: r => r.drop (r.takeWhile Char.isDigit).length
    | _ => r1
  if ip.isEmpty ∧ fp.isEmpty then none
  else
    let mant : ℚ := (digitsToNat ip : ℚ) + (digitsToNat fp : ℚ) / (10 : ℚ) ^ fp.length
    match r2 with
    | [] => some mant
    | e :: r3 =>
      if e = 'e' ∨ e = 'E' then
        let esgn : ℤ := if r3.headD ' ' = '-' then -1 else 1
        let r4 :=
          match r3 with
          | '+' :: r => r
          | '-' :: r => r
          | _ => r3
        let ed := r4.takeWhile Char.isDigit
        if ed.isEmpty ∨ ¬ (r4.drop ed.length).isEmpty then none
        else some (mant * (10 : ℚ) ^ (esgn * (digitsToNat ed : ℤ)))
      else none

/-- Python `float(s)`: strip whitespace, optional sign, then the body.
`none` models a raised `ValueError`. -/
def pyFloat? (s : List Char) : Option ℚ :=
  let t := pyStrip s
  match t with
  | '+' :: r => pyFloatCore r
  | '-' :: r => (pyFloatCore r).map Neg.neg
  | _ => pyFloatCore t

/-- Two-digit zero-padded rendering of a number below 100. -/
def natPad2 (n : ℕ) : String :=
  if n < 10 then "0" ++ toString n else toString n

/-- `f'{x:.2f}'`: the value rounded to cents (half-up on the exact
rational standing in for the IEEE double) with two decimals. -/
def fmt2 (q : ℚ) : String :=
  let cents : ℤ := (q * 100 + 1 / 2).floor
  if cents < 0 then
    "-" ++ toString (cents.natAbs / 100) ++ "." ++ natPad2 (cents.natAbs % 100)
  else
    toString (cents.toNat / 100) ++ "." ++ natPad2 (cents.toNat % 100)

/-! ## Ordered dictionaries -/

/-- `d[k] = v` on an insertion-ordered dict: overwrite in place, else append. -/
def dictSet {α : Type} (d : List (String × α)) (k : String) (v : α) : List (String × α) :=
  match d with
  | [] => [(k, v)]
  | (k', v') :: rest => if k' = k then (k, v) :: rest else (k', v') :: dictSet rest k v

/-- Dict lookup (first binding; the dicts built here have unique keys). -/
def dictGet? {α : Type} : List (String × α) → String → Option α
  | [], _ => none
  | (k', v) :: rest, k => if k' = k then some v else dictGet? rest k

/-! ## Data model -/

/-- One entry of `pricing_structure['unit_pricing']`. The scraped-text
strategy emits entries without a `description` key (`none`); the
structured strategy always sets one. -/
structure UnitPriceEntry where
  unit : String
  price : String
  description : Option String := none
deriving Repr, DecidableEq

/-- The `pricing_structure` dict built by `parse_pricing_data`.
`recommendations` is the two-field dict `{'immediate': ..., 'best_practices': ...}`
flattened into the two list fields. -/
structure PricingStructure where
  service_name : String
  service_description : String
  unit_pricing : List UnitPriceEntry
  free_tier : String
  usage_levels : List (String × List (String × String))
  key_cost_factors : List String
  projected_costs : List (String × List (String × String))
  recommendations_immediate : List String
  recommendations_best_practices : List String
  assumptions : List String
deriving Repr, DecidableEq

/-! ## Scraped-text strategy: the three description patterns

`rf'{service_name.title()} is a ... service that (.*?)\.'` with
`re.IGNORECASE`: leftmost occurrence of the literal prefix after which a
`'.'` follows with no newline before it (`.` does not cross newlines
without `re.DOTALL`); the lazy group captures up to that first dot. -/

/-- The lazy group `(.*?)` followed by `\.`: characters up to the first
`'.'`; fails if a newline (not matched by `.`) comes first. -/
def captureToDot : List Char → Option (List Char)
  | [] => none
  | '.' :: _ => some []
  | '\n' :: _ => none
  | c :: rest => (captureToDot rest).map (c :: ·)

/-- `re.search` for `prefix(.*?)\.`: scan left to right for a position
where the literal prefix matches (case-insensitively) and the capture
succeeds. -/
def searchDescr (pat : List Char) : List Char → Option (List Char)
  | [] => none
  | c :: rest =>
    match (if isPrefixOfCI pat (c :: rest) then captureToDot ((c :: rest).drop pat.length) else none) with
    | some cap => some cap
    | none => searchDescr pat rest

/-- The three description templates, tried in order; first match wins. -/
def extractDescription (service_name : String) (text : List Char) : String :=
  let ttl := (pyTitle service_name).toList
  let pats := [ttl ++ " is a fully managed service that ".toList,
               ttl ++ " is a serverless service that ".toList,
               ttl ++ " is an AWS service that ".toList]
  match pats.findSome? (fun p => searchDescr p text) with
  | some cap => ⟨cap⟩
  | none => ""

/-! ## Scraped-text strategy: the pricing-section regex

`(?:Pricing|Price|Costs?|Fees?)(.*?)(?:Free Tier|Features|Benefits|FAQs)`
with `re.DOTALL | re.IGNORECASE`: leftmost opener occurrence; the lazy
group runs to the earliest following closer occurrence.  (If an opener
alternative matches at a position but no closer follows, no shorter
alternative at the same position can succeed either, since every closer
starts with `F` or `B` while the alternatives only differ by trailing
`ing`/`s`.) -/

/-- Length of the first opener alternative matching here
(`Pricing`, `Price`, `Costs`, `Cost`, `Fees`, `Fee`; greedy `s?`). -/
def openerLen (s : List Char) : Option ℕ :=
  if isPrefixOfCI "pricing".toList s then some 7
  else if isPrefixOfCI "price".toList s then some 5
  else if isPrefixOfCI "costs".toList s then some 5
  else if isPrefixOfCI "cost".toList s then some 4
  else if isPrefixOfCI "fees".toList s then some 4
  else if isPrefixOfCI "fee".toList s then some 3
  else none

/-- Does one of the closer alternatives match at this position? -/
def closerHere (s : List Char) : Bool :=
  isPrefixOfCI "free tier".toList s || isPrefixOfCI "features".toList s ||
    isPrefixOfCI "benefits".toList s || isPrefixOfCI "faqs".toList s

/-- The lazy group: all characters up to the earliest closer occurrence. -/
def takeUntilCloser : List Char → Option (List Char)
  | [] => none
  | c :: rest =>
    if closerHere (c :: rest) then some []
    else (takeUntilCloser rest).map (c :: ·)

/-- `re.search` for the pricing-section pattern: `group(1)` of the
leftmost match, if any. -/
def findPriceSection : List Char → Option (List Char)
  | [] => none
  | c :: rest =>
    match (openerLen (c :: rest)).bind (fun n => takeUntilCloser ((c :: rest).drop n)) with
    | some sec => some sec
    | none => findPriceSection rest

/-! ## Scraped-text strategy: the three price-line patterns (`re.findall`)

Each scanner consumes at least one character per step, so fuelling each
with the length of its input is exact. -/

/-- `re.findall(r'\$([\d,.]+) per ([\w\s-]+)', ...)`, returning
`(price, unit)` group pairs. -/
def findallPat1 : ℕ → List Char → List (List Char × List Char)
  | 0, _ => []
  | _ + 1, [] => []
  | fuel + 1, c :: rest =>
    if c = '$' then
      let digits := rest.takeWhile isPriceClass
      let r1 := rest.drop digits.length
      let unit := (r1.drop 5).takeWhile isUnitClass
      if digits.isEmpty ∨ ¬ isPrefixOfCI " per ".toList r1 ∨ unit.isEmpty then
        findallPat1 fuel rest
      else
        (digits, unit) :: findallPat1 fuel ((r1.drop 5).drop unit.length)
    else findallPat1 fuel rest

/-- The tail ` costs? \$([\d,.]+)` of the second pattern, starting right
after the unit group: returns the price group and the remaining text.
The greedy `s?` consumes an `s` when the rest still matches, otherwise
backtracks. -/
def pat2Tail (s : List Char) : Option (List Char × List Char) :=
  let sp : List Char → Option (List Char × List Char) := fun r =>
    if isPrefixOfCI " $".toList r then
      let d := (r.drop 2).takeWhile isPriceClass
      if d.isEmpty then none else some (d, (r.drop 2).drop d.length)
    else none
  if isPrefixOfCI " cost".toList s then
    let r := s.drop 5
    match r with
    | c :: r2 => if c.toLower = 's' then (sp r2).orElse (fun _ => sp r) else sp r
    | [] => none
  else none

/-- Greedy unit group `([\w\s-]+)` followed by a tail matcher: try the
longest run first (`q` characters), backtracking one character at a
time down to a single character. -/
def greedyAt (tl : List Char → Option (List Char × List Char)) (s : List Char) :
    ℕ → Option (List Char × List Char × List Char)
  | 0 => none
  | q + 1 =>
    match tl (s.drop (q + 1)) with
    | some (d, rest) => some (s.take (q + 1), d, rest)
    | none => greedyAt tl s q

/-- `re.findall(r'([\w\s-]+) costs? \$([\d,.]+)', ...)`, returning
`(unit, price)` group pairs. -/
def findallPat2 : ℕ → List Char → List (List Char × List Char)
  | 0, _ => []
  | _ + 1, [] => []
  | fuel + 1, c :: rest =>
    match greedyAt pat2Tail (c :: rest) ((c :: rest).takeWhile isUnitClass).length with
    | some (u, d, after) => (u, d) :: findallPat2 fuel after
    | none => findallPat2 fuel rest

/-- The tail `: \$([\d,.]+)` of the third pattern. -/
def pat3Tail (s : List Char) : Option (List Char × List Char) :=
  if isPrefixOfCI ": $".toList s then
    let d := (s.drop 3).takeWhile isPriceClass
    if d.isEmpty then none else some (d, (s.drop 3).drop d.length)
  else none

/-- `re.findall(r'([\w\s-]+): \$([\d,.]+)', ...)`, returning
`(unit, price)` group pairs. -/
def findallPat3 : ℕ → List Char → List (List Char × List Char)
  | 0, _ => []
  | _ + 1, [] => []
  | fuel + 1, c :: rest =>
    match greedyAt pat3Tail (c :: rest) ((c :: rest).takeWhile isUnitClass).length with
    | some (u, d, after) => (u, d) :: findallPat3 fuel after
    | none => findallPat3 fuel rest

/-- The whole scraped-text strategy: description via the three templates,
then every match of every price pattern, in pattern order, accumulated
into `unit_pricing` entries.  Pattern 1 captures `(price, unit)`, the
other two `(unit, price)`. -/
def scrapedExtract (service_name : String) (text : String) : String × List UnitPriceEntry :=
  let t := text.toList
  let desc := extractDescription service_name t
  let entries :=
    match findPriceSection t with
    | none => []
    | some sec =>
      (findallPat1 sec.length sec).map
        (fun g => UnitPriceEntry.mk (String.mk (pyStrip g.2)) ("$" ++ String.mk (pyStrip g.1)) none)
      ++ (findallPat2 sec.length sec).map
        (fun g => UnitPriceEntry.mk (String.mk (pyStrip g.1)) ("$" ++ String.mk (pyStrip g.2)) none)
      ++ (findallPat3 sec.length sec).map
        (fun g => UnitPriceEntry.mk (String.mk (pyStrip g.1)) ("$" ++ String.mk (pyStrip g.2)) none)
  (desc, entries)

/-! ## Structured strategy: decoded price-list records -/

/-- A decoded JSON value (the result of `json.loads` on a record). -/
inductive J where
  | jstr : String → J
  | jnum : ℚ → J
  | jbool : Bool → J
  | jnull : J
  | jarr : List J → J
  | jobj : List (String × J) → J
deriving Repr

/-- Python exceptions relevant to the structured traversal.  `keyError`
is caught per record by `except (json.JSONDecodeError, KeyError)`; the
other two propagate to the boundary handler. -/
inductive PyErr where
  | keyError : String → PyErr
  | typeError : String → PyErr
  | attrError : String → PyErr
deriving Repr, DecidableEq

/-- Python `str()` of a decoded value (non-string leaves approximated;
the program only meets strings here). -/
def pyStrOf : J → String
  | .jstr s => s
  | .jbool true => "True"
  | .jbool false => "False"
  | .jnull => "None"
  | .jnum q => toString q
  | .jarr _ => "[...]"
  | .jobj _ => "\x7b...\x7d"

/-- Is the string `key` equal to an element of the list (Python `in` on a
list; a string compares equal only to an equal string)? -/
def jHasStr (key : String) : List J → Bool
  | [] => false
  | .jstr s :: rest => s = key || jHasStr key rest
  | _ :: rest => jHasStr key rest

/-- Python `key in v`. -/
def pyIn (key : String) : J → Except PyErr Bool
  | .jobj kvs => .ok (kvs.any (fun kv => kv.1 = key))
  | .jarr xs => .ok (jHasStr key xs)
  | .jstr s => .ok (containsSub key.toList s.toList)
  | _ => .error (.typeError "argument of type is not iterable")

/-- Python `v.get(k, d)` (dict method; anything else has no `get`). -/
def pyGet (v : J) (k : String) (d : J) : Except PyErr J :=
  match v with
  | .jobj kvs => .ok (((kvs.find? (fun kv => kv.1 = k)).map Prod.snd).getD d)
  | _ => .error (.attrError "object has no attribute get")

/-- Python `v[k]` with a string key. -/
def pyIndex (v : J) (k : String) : Except PyErr J :=
  match v with
  | .jobj kvs =>
    match (kvs.find? (fun kv => kv.1 = k)).map Prod.snd with
    | some x => .ok x
    | none => .error (.keyError k)
  | _ => .error (.typeError "indices must be integers")

/-- Python `v.items()`. -/
def pyItems : J → Except PyErr (List (String × J))
  | .jobj kvs => .ok kvs
  | _ => .error (.attrError "object has no attribute items")

/-- One price dimension: when it carries both `pricePerUnit` and `unit`,
append `{unit, price: '$' + pricePerUnit.get('USD', 'N/A'), description}`. -/
def dimensionStep (acc : List UnitPriceEntry) (dimension : J) :
    Except PyErr (List UnitPriceEntry) := do
  let hasPPU ← pyIn "pricePerUnit" dimension
  if hasPPU then
    let hasUnit ← pyIn "unit" dimension
    if hasUnit then
      let unit ← pyIndex dimension "unit"
      let ppu ← pyGet dimension "pricePerUnit" (.jobj [])
      let price ← pyGet ppu "USD" (.jstr "N/A")
      let descr ← pyGet dimension "description" (.jstr "")
      pure (acc ++ [⟨pyStrOf unit, "$" ++ pyStrOf price, some (pyStrOf descr)⟩])
    else pure acc
  else pure acc

/-- Process one decoded record: possibly set the description from
`product.attributes`, then traverse `terms → term type → offer → price
dimension`. -/
def recordCore (desc : String) (entries : List UnitPriceEntry) (j : J) :
    Except PyErr (String × List UnitPriceEntry) := do
  let terms ← pyGet j "terms" (.jobj [])
  let product ← pyGet j "product" (.jobj [])
  let desc ←
    if desc = "" then do
      let hasAttrs ← pyIn "attributes" product
      if hasAttrs then do
        let attrs ← pyIndex product "attributes"
        let hasPF ← pyIn "productFamily" attrs
        let hasD ← if hasPF then pyIn "description" attrs else pure false
        if hasPF ∧ hasD then do
          let pf ← pyIndex attrs "productFamily"
          let d ← pyIndex attrs "description"
          pure (pyStrOf pf ++ " that " ++ pyStrOf d)
        else pure desc
      else pure desc
    else pure desc
  let termsList ← pyItems terms
  let entries ← termsList.foldlM (fun acc kv => do
      let tvs ← pyItems kv.2
      tvs.foldlM (fun acc2 kv2 => do
          let dims ← pyItems kv2.2
          dims.foldlM (fun acc3 kv3 => dimensionStep acc3 kv3.2) acc2) acc) entries
  pure (desc, entries)

/-- One element of a structured `pricing_data['data']` list, given by its
`json.loads` outcome (see the header). -/
inductive RecordItem where
  | json : Option J → RecordItem
  | nonString : RecordItem

/-- Per-record control flow: non-strings skipped by `isinstance`, decode
failures and `KeyError` caught and skipped, other exceptions propagate
as their display text. -/
def processRecord (st : String × List UnitPriceEntry) :
    RecordItem → Except String (String × List UnitPriceEntry)
  | .nonString => .ok st
  | .json none => .ok st
  | .json (some j) =>
    match recordCore st.1 st.2 j with
    | .ok r => .ok r
    | .error (.keyError _) => .ok st
    | .error (.typeError m) => .error ("TypeError: " ++ m)
    | .error (.attrError m) => .error ("AttributeError: " ++ m)

/-- The structured strategy over the first five records. -/
def structuredExtract (items : List RecordItem) :
    Except String (String × List UnitPriceEntry) :=
  (items.take 5).foldlM processRecord ("", [])

/-! ## The `pricing_data` argument and shape sniffing -/

/-- The value at `pricing_data['data']`: a string (scraped text), a list
of records, or anything else (the structured branch's `isinstance(...,
list)` guard then extracts nothing). -/
inductive DataPayload where
  | text : String → DataPayload
  | records : List RecordItem → DataPayload
  | other : DataPayload

/-- The `pricing_data` dict: its `data` entry (if present) and whether it
has further keys (which only matters for Python truthiness at the
boundary). -/
structure PricingData where
  data : Option DataPayload
  otherKeys : Bool

/-- Extraction phase: shape-sniff on `isinstance(pricing_data.get('data'), str)`. -/
def extractPhase (pd : PricingData) (service_name : String) :
    Except String (String × List UnitPriceEntry) :=
  match pd.data with
  | some (.text t) => .ok (scrapedExtract service_name t)
  | some (.records items) => structuredExtract items
  | some .other => .ok ("", [])
  | none => .ok ("", [])

/-! ## Usage levels, baseline and projections (the common tail) -/

/-- `price.replace('$', '').replace(',', '')` as a character list. -/
def stripMoney (s : String) : List Char :=
  s.toList.filter (fun c => ¬ (c = '$' ∨ c = ','))

/-- Cost string of one entry at one level: strip `$` and `,`, parse,
scale, format; parse failure degrades to the sentinel. -/
def levelCost (price : String) (multiplier : ℚ) : String :=
  match pyFloat? (stripMoney price) with
  | some p => "$" ++ fmt2 (p * multiplier)
  | none => "Calculation not available"

/-- The per-level dict `level_costs`, built entry by entry (a later entry
with the same unit overwrites the earlier binding). -/
def levelMap (ups : List UnitPriceEntry) (multiplier : ℚ) : List (String × String) :=
  ups.foldl (fun d e => dictSet d e.unit (levelCost e.price multiplier)) []

/-- `usage_levels` after the multiplier loop: the three assignments into
the initialised three-key dict keep the key order `low, medium, high`;
with no unit pricing the loop is skipped and the keys map to `{}`. -/
def buildUsageLevels (ups : List UnitPriceEntry) : List (String × List (String × String)) :=
  if ups.isEmpty then [("low", []), ("medium", []), ("high", [])]
  else [("low", levelMap ups (1 / 2)), ("medium", levelMap ups 1), ("high", levelMap ups 2)]

/-- Sum of the `$`-bearing, parseable cost strings of one level dict
(parse failures are skipped by `except ... pass`). -/
def sumDollarCosts (costs : List (String × String)) : ℚ :=
  costs.foldl (fun acc kv =>
    if containsSub ['$'] kv.2.toList then
      match pyFloat? (stripMoney kv.2) with
      | some v => acc + v
      | none => acc
    else acc) 0

/-- The four projected months. -/
def monthKeys : List ℕ := [1, 3, 6, 12]

/-- One growth pattern's dict `'Month m' ↦ '$' + baseline * rate^m`. -/
def monthlyCosts (rate baseline : ℚ) : List (String × String) :=
  monthKeys.map (fun m => ("Month " ++ toString m, "$" ++ fmt2 (baseline * rate ^ m)))

/-- `projected_costs` for the three growth patterns (the floats 1.0, 1.1,
1.2 modelled exactly). -/
def buildProjections (baseline : ℚ) : List (String × List (String × String)) :=
  [("steady", monthlyCosts 1 baseline),
   ("moderate", monthlyCosts (11 / 10) baseline),
   ("rapid", monthlyCosts (6 / 5) baseline)]

/-- `get_default_cost_factors`: first keyword matching the lowercased
service name wins. -/
def get_default_cost_factors (service_name : String) : List String :=
  let s := (pyLower service_name).toList
  if containsSub "lambda".toList s then
    ["Number of requests", "Duration of execution", "Memory allocated", "Data transfer out"]
  else if containsSub "dynamodb".toList s then
    ["Read and write throughput", "Storage used", "Data transfer", "Backup and restore operations"]
  else if containsSub "s3".toList s then
    ["Storage used", "Requests made", "Data transfer", "Storage class transitions"]
  else if containsSub "bedrock".toList s then
    ["Model used", "Input tokens processed", "Output tokens generated", "Request frequency"]
  else
    ["Usage volume", "Resource allocation", "Data transfer", "Operation frequency"]

/-- Everything `parse_pricing_data` does after extraction: description
default, usage levels, cost factors, baseline, projections.  `free_tier`,
`recommendations` and `assumptions` keep their initial empty values —
nothing in the function ever writes to them. -/
def finishParse (desc : String) (ups : List UnitPriceEntry) (service_name : String) :
    PricingStructure :=
  let d := if desc = "" then "provides " ++ service_name ++ " functionality in the AWS cloud" else desc
  let levels := buildUsageLevels ups
  let med := (dictGet? levels "medium").getD []
  let s := sumDollarCosts med
  let baseline := if s = 0 then 100 else s
  { service_name := service_name
    service_description := d
    unit_pricing := ups
    free_tier := ""
    usage_levels := levels
    key_cost_factors := get_default_cost_factors service_name
    projected_costs := buildProjections baseline
    recommendations_immediate := []
    recommendations_best_practices := []
    assumptions := [] }

/-- `CostAnalysisHelper.parse_pricing_data` (the `related_services`
parameter is accepted and never used, as in the source). -/
def parse_pricing_data (pd : PricingData) (service_name : String)
    (_related_services : Option (List String)) : Except String PricingStructure :=
  (extractPhase pd service_name).map (fun p => finishParse p.1 p.2 service_name)

/-! ## `CostAnalysisHelper.generate_cost_table` -/

/-- `item.get('description', unit).split(' ')[0]`. -/
def resourceTypeOf (e : UnitPriceEntry) : String :=
  String.mk ((e.description.getD e.unit).toList.takeWhile (fun c => c ≠ ' '))

/-- The unit-pricing-details markdown table (free-tier text truncated to
47 characters plus an ellipsis when longer than 50; `N/A` placeholder row
when there are no entries). -/
def unitPricingDetailsTable (st : PricingStructure) : String :=
  let header := "| Service | Resource Type | Unit | Price | Free Tier |\n|---------|--------------|------|-------|------------|\n"
  let free_tier_info := st.free_tier
  let free_tier_info := if free_tier_info.length > 50 then free_tier_info.take 47 ++ "..." else free_tier_info
  if st.unit_pricing.isEmpty then
    header ++ "| " ++ st.service_name ++ " | N/A | N/A | N/A | " ++ free_tier_info ++ " |\n"
  else
    header ++ String.join (st.unit_pricing.map (fun e =>
      "| " ++ st.service_name ++ " | " ++ resourceTypeOf e ++ " | " ++ e.unit ++ " | " ++
        e.price ++ " | " ++ free_tier_info ++ " |\n"))

/-- The cost-calculation table: one row per `usage_levels` item whose key
is `medium`, summing that level's parseable costs. -/
def costCalculationTable (st : PricingStructure) : String :=
  let header := "| Service | Usage | Calculation | Monthly Cost |\n|---------|--------|-------------|-------------|\n"
  header ++ String.join ((st.usage_levels.filter (fun kv => kv.1 = "medium")).map (fun kv =>
    let total := sumDollarCosts kv.2
    let monthly := if total > 0 then "$" ++ fmt2 total else "Varies"
    "| " ++ st.service_name ++ " | " ++ pyTitle kv.1 ++ " usage level | See pricing details | " ++
      monthly ++ " |\n"))

/-- The usage-cost-scaling table.  In the source the loop
`for unit in low_cost.keys(): for cost_dict, total in [(low_cost, total_low), ...]`
adds each parseable cost to the tuple-unpacked loop variable `total`;
that rebinding never updates `total_low`, `total_med` or `total_high`,
which therefore stay `0` and every display falls to `'Varies'`. -/
def usageCostTable (st : PricingStructure) : String :=
  let header := "| Service | Low Usage | Medium Usage | High Usage |\n|---------|------------|--------------|------------|\n"
  let low_cost := (dictGet? st.usage_levels "low").getD []
  let med_cost := (dictGet? st.usage_levels "medium").getD []
  let high_cost := (dictGet? st.usage_levels "high").getD []
  let total_low : ℚ := 0
  let total_med : ℚ := 0
  let total_high : ℚ := 0
  -- `for unit in low_cost.keys(): for cost_dict, total in [(low_cost, total_low),
  -- (med_cost, total_med), (high_cost, total_high)]: ... total += cost_value`:
  -- the augmented assignment rebinds the tuple-unpacked loop variable `total`,
  -- so no iteration state survives the loop and the three accumulators stay 0.
  let _loop : Unit :=
    (low_cost.map Prod.fst).foldl (fun _ u =>
      [(low_cost, total_low), (med_cost, total_med), (high_cost, total_high)].foldl
        (fun _ p =>
          match dictGet? p.1 u with
          | some cost =>
            if containsSub ['$'] cost.toList then
              match pyFloat? (stripMoney cost) with
              | some v => let _total := p.2 + v; ()
              | none => ()
            else ()
          | none => ()) ()) ()
  let low_display := if total_low > 0 then "$" ++ fmt2 total_low ++ "/month" else "Varies"
  let med_display := if total_med > 0 then "$" ++ fmt2 total_med ++ "/month" else "Varies"
  let high_display := if total_high > 0 then "$" ++ fmt2 total_high ++ "/month" else "Varies"
  header ++ "| " ++ st.service_name ++ " | " ++ low_display ++ " | " ++ med_display ++ " | " ++
    high_display ++ " |\n"

/-- What the usage-cost-scaling row would display had the three totals
accumulated the per-level sums (the spec's reading of lines 263-277):
the sum over the units of the low-level dict of the corresponding
level's parseable cost. -/
def intendedLevelTotal (st : PricingStructure) (level : String) : ℚ :=
  let low := (dictGet? st.usage_levels "low").getD []
  let lvl := (dictGet? st.usage_levels level).getD []
  (low.map Prod.fst).foldl (fun acc u =>
    match dictGet? lvl u with
    | some cost =>
      if containsSub ['$'] cost.toList then
        match pyFloat? (stripMoney cost) with
        | some v => acc + v
        | none => acc
      else acc
    | none => acc) 0

/-- The projected-costs table. -/
def projectedCostsTable (st : PricingStructure) : String :=
  let header := "| Growth Pattern |" ++ String.intercalate " | " (monthKeys.map (fun m => "Month " ++ toString m)) ++ " |\n" ++
    "|---------------|" ++ String.intercalate "|" (monthKeys.map (fun _ => "----")) ++ "|\n"
  header ++ String.join (st.projected_costs.map (fun kv =>
    "| " ++ pyTitle kv.1 ++ " |" ++
      String.join (monthKeys.map (fun m =>
        " " ++ ((dictGet? kv.2 ("Month " ++ toString m)).getD "N/A") ++ " |")) ++ "\n"))

/-! ## `generate_well_architected_recommendations` -/

/-- Case-insensitive keyword test against any of the service names
(`any(kw in s for s in services_lower)`). -/
def hasKeyword (kw : String) (names : List String) : Bool :=
  (names.map pyLower).any (fun s => containsSub kw.toList s.toList)

/-- The recommendation lists after all service-specific augmentations,
before truncation. -/
def waAugmented (names : List String) : List String × List String :=
  let immediate := ["Right-size resources based on actual usage patterns",
    "Implement cost allocation tags to track spending by component",
    "Set up AWS Budgets alerts to monitor costs"]
  let best := ["Regularly review and analyze cost patterns with AWS Cost Explorer",
    "Consider reserved capacity options for predictable workloads",
    "Implement automated scaling based on demand"]
  let immediate := if hasKeyword "bedrock" names then
    "Optimize prompt engineering to reduce token usage in Bedrock models" :: immediate else immediate
  let best := if hasKeyword "bedrock" names then
    best ++ ["Monitor runtime metrics with CloudWatch filtered by application inference profile ARN"] else best
  let immediate := if hasKeyword "lambda" names then
    immediate ++ ["Optimize Lambda memory settings based on function requirements"] else immediate
  let best := if hasKeyword "lambda" names then
    best ++ ["Use AWS Lambda Power Tuning tool to find optimal memory settings"] else best
  let best := if hasKeyword "s3" names then
    best ++ ["Implement S3 lifecycle policies to transition older data to cheaper storage tiers"] else best
  let best := if hasKeyword "dynamodb" names then
    best ++ ["Use DynamoDB on-demand capacity for unpredictable workloads"] else best
  (immediate, best)

/-- `generate_well_architected_recommendations`: augment, then keep the
first five of each list. -/
def generate_well_architected_recommendations (names : List String) : List String × List String :=
  ((waAugmented names).1.take 5, (waAugmented names).2.take 5)

/-! ## Renderers -/

/-- `chr(10).join(f'- {x}' for x in xs)`. -/
def bulletList (xs : List String) : String :=
  String.intercalate "\n" (xs.map (fun x => "- " ++ x))

/-- The rendered Assumptions section body. -/
def renderedAssumptions (st : PricingStructure) : String := bulletList st.assumptions

/-- The rendered Immediate Actions section body. -/
def renderedImmediate (st : PricingStructure) : String :=
  bulletList st.recommendations_immediate

/-- The rendered Best Practices section body. -/
def renderedBestPractices (st : PricingStructure) : String :=
  bulletList st.recommendations_best_practices

/-- The markdown report f-string of `generate_cost_report`. -/
def markdownReport (st : PricingStructure) (service_name : String) : String :=
  "# " ++ service_name ++ " Cost Analysis\n\n## Overview\n\n" ++
  st.service_description ++
  "\n\nThis cost analysis is based on the following pricing model:\n" ++
  "- **ON DEMAND** pricing (pay-as-you-go)\n" ++
  "- Standard service configurations without reserved capacity or savings plans\n" ++
  "- No caching or optimization techniques applied\n\n## Assumptions\n\n" ++
  renderedAssumptions st ++
  "\n\n## Unit Pricing Details\n\n" ++
  unitPricingDetailsTable st ++
  "\n\n## Cost Calculation\n\n" ++
  costCalculationTable st ++
  "\n\n## Free Tier Information\n\n" ++
  st.free_tier ++
  "\n\n## Cost Scaling with Usage\n\n" ++
  usageCostTable st ++
  "\n\n## Key Cost Factors\n\n" ++
  bulletList st.key_cost_factors ++
  "\n\n## Projected Costs Over Time\n\n" ++
  projectedCostsTable st ++
  "\n\n## AWS Well-Architected Cost Optimization Recommendations\n\n### Immediate Actions\n\n" ++
  renderedImmediate st ++
  "\n\n### Best Practices\n\n" ++
  renderedBestPractices st ++
  "\n\n## Conclusion\n\nBy following the recommendations in this report, you can optimize your " ++
  service_name ++ " costs while maintaining performance and reliability.\n" ++
  "Regular monitoring and adjustment of your usage patterns will help ensure cost efficiency as your workload evolves.\n"

/-- One CSV field with minimal quoting (`csv.writer` default dialect). -/
def csvField (s : String) : String :=
  if s.toList.any (fun c => c = ',' ∨ c = '"' ∨ c = '\n' ∨ c = '\r') then
    "\"" ++ String.join (s.toList.map (fun c => if c = '"' then "\"\"" else String.singleton c)) ++ "\""
  else s

/-- One CSV row (default line terminator `\r\n`). -/
def csvRow (fields : List String) : String :=
  String.intercalate "," (fields.map csvField) ++ "\r\n"

/-- `_generate_csv_report`. -/
def csvReport (st : PricingStructure) (service_name : String) : String :=
  csvRow ["AWS Cost Analysis Report"] ++ csvRow [] ++
  csvRow ["Service Information"] ++ csvRow ["Name", service_name] ++
  csvRow ["Description", st.service_description] ++ csvRow [] ++
  csvRow ["Unit Pricing"] ++ csvRow ["Resource Type", "Unit", "Price"] ++
  String.join (st.unit_pricing.map (fun e =>
    csvRow [e.description.getD "N/A", e.unit, e.price])) ++ csvRow [] ++
  csvRow ["Usage Based Costs"] ++ csvRow ["Usage Level", "Monthly Cost"] ++
  String.join (st.usage_levels.map (fun kv =>
    let total := sumDollarCosts kv.2
    csvRow [pyTitle kv.1, if total > 0 then "$" ++ fmt2 total else "Varies"])) ++ csvRow [] ++
  csvRow ["Key Cost Factors"] ++
  String.join (st.key_cost_factors.map (fun f => csvRow ["", f])) ++ csvRow [] ++
  csvRow ["Immediate Actions"] ++
  String.join (st.recommendations_immediate.map (fun a => csvRow ["", a])) ++ csvRow [] ++
  csvRow ["Best Practices"] ++
  String.join (st.recommendations_best_practices.map (fun p => csvRow ["", p]))

/-! ## `generate_cost_report` and `lambda_handler` -/

/-- `generate_cost_report`: parse, then render in the selected format.
The `params` dict assembled by the handler is accepted and never read,
as in the source. -/
def generate_cost_report (pd : PricingData) (service_name : String)
    (related_services : Option (List String)) (format : String) : Except String String :=
  match parse_pricing_data pd service_name related_services with
  | .error e => .error e
  | .ok st =>
    if pyLower format = "csv" then .ok (csvReport st service_name)
    else .ok (markdownReport st service_name)

/-- The Lambda event, restricted to the keys the handler reads.
`service_name` and `format` are modelled as strings (the only values the
pipeline accepts without raising). -/
structure Event where
  pricing_data : Option PricingData
  service_name : Option String
  related_services : Option (List String)
  pricing_model : Option String
  assumptions : Option (List String)
  exclusions : Option (List String)
  detailed_cost_data : Option J
  format : Option String

/-- The handler's return value: `{'status': 'error', 'message': m}` or
`{'status': 'success', 'report': r, 'message': m}`. -/
inductive LambdaResult where
  | err : String → LambdaResult
  | success : String → String → LambdaResult
deriving Repr, DecidableEq

/-- Python truthiness of `event.get('pricing_data')`: `None` (absent) and
the empty dict are falsy. -/
def pdTruthy : Option PricingData → Bool
  | none => false
  | some pd => pd.data.isSome || pd.otherKeys

/-- Python truthiness of `event.get('service_name')`. -/
def snTruthy : Option String → Bool
  | none => false
  | some s => s ≠ ""

/-- `lambda_handler`: required-parameter checks, then report generation
with every escaping exception converted to a generic error result. -/
def lambda_handler (e : Event) : LambdaResult :=
  if pdTruthy e.pricing_data = false then .err "Missing pricing_data parameter"
  else if snTruthy e.service_name = false then .err "Missing service_name parameter"
  else
    let pd := e.pricing_data.getD ⟨none, false⟩
    let sn := e.service_name.getD ""
    match generate_cost_report pd sn e.related_services (e.format.getD "markdown") with
    | .ok report => .success report ("Generated cost report for " ++ sn)
    | .error msg => .err ("Error generating cost report: " ++ msg)

/-! ## Helper lemmas -/

/-- Every successful normalization result is the common tail applied to
some extraction outcome. -/
theorem parse_ok_shape {pd : PricingData} {n : String} {rs : Option (List String)}
    {st : PricingStructure} (h : parse_pricing_data pd n rs = .ok st) :
    ∃ d ups, extractPhase pd n = .ok (d, ups) ∧ st = finishParse d ups n := by
  unfold parse_pricing_data at h
  cases hex : extractPhase pd n with
  | error e => rw [hex] at h; exact absurd h (by simp [Except.map])
  | ok p =>
    obtain ⟨a, b⟩ := p
    rw [hex] at h
    simp only [Except.map, Except.ok.injEq] at h
    exact ⟨a, b, rfl, h.symm⟩

theorem dictGet?_buildProjections_steady (b : ℚ) :
    dictGet? (buildProjections b) "steady" = some (monthlyCosts 1 b) := rfl

theorem dictGet?_monthlyCosts_m1 (r b : ℚ) :
    dictGet? (monthlyCosts r b) "Month 1" = some ("$" ++ fmt2 (b * r ^ 1)) := rfl

theorem usage_levels_of_finishParse (d : String) (ups : List UnitPriceEntry) (n : String) :
    (finishParse d ups n).usage_levels = buildUsageLevels ups := rfl

theorem projected_of_finishParse (d : String) (ups : List UnitPriceEntry) (n : String) :
    (finishParse d ups n).projected_costs =
      buildProjections
        (if sumDollarCosts ((dictGet? (buildUsageLevels ups) "medium").getD []) = 0 then 100
         else sumDollarCosts ((dictGet? (buildUsageLevels ups) "medium").getD [])) := rfl

theorem dictGet?_dictSet {α : Type} (d : List (String × α)) (k k' : String) (v : α) :
    dictGet? (dictSet d k v) k' = if k = k' then some v else dictGet? d k' := by
  induction d with
  | nil => simp [dictSet, dictGet?]
  | cons kv rest ih =>
    obtain ⟨k'', v''⟩ := kv
    by_cases h1 : k'' = k
    · subst h1
      by_cases h2 : k'' = k' <;> simp [dictSet, dictGet?, h2]
    · by_cases h2 : k'' = k' <;> by_cases h3 : k = k' <;>
        simp_all [dictSet, dictGet?]

/-- The last entry of the list carrying the given unit, if any: the one
whose cost survives in the per-level dict. -/
def lastWith (u : String) : List UnitPriceEntry → Option UnitPriceEntry
  | [] => none
  | e :: rest =>
    match lastWith u rest with
    | some e' => some e'
    | none => if e.unit = u then some e else none

theorem lastWith_eq_none (u : String) (l : List UnitPriceEntry)
    (h : ∀ e ∈ l, e.unit ≠ u) : lastWith u l = none := by
  induction l with
  | nil => rfl
  | cons e rest ih =>
    have hr := ih (fun x hx => h x (List.mem_cons_of_mem _ hx))
    simp [lastWith, hr, h e (List.mem_cons_self _ _)]

theorem lastWith_isSome_of_mem (u : String) (l : List UnitPriceEntry) (e : UnitPriceEntry)
    (he : e ∈ l) (hu : e.unit = u) : (lastWith u l).isSome = true := by
  induction l with
  | nil => cases he
  | cons x rest ih =>
    rcases List.mem_cons.mp he with h | h
    · subst h
      cases hlw : lastWith u rest with
      | some e' => simp [lastWith, hlw]
      | none => simp [lastWith, hlw, hu]
    · have hs := ih h
      cases hlw : lastWith u rest with
      | some e' => simp [lastWith, hlw]
      | none => rw [hlw] at hs; simp at hs

theorem lastWith_of_no_later (l : List UnitPriceEntry) (i : ℕ) (hi : i < l.length)
    (hnd : ∀ j, (hj : j < l.length) → i < j →
      (l.get ⟨j, hj⟩).unit ≠ (l.get ⟨i, hi⟩).unit) :
    lastWith (l.get ⟨i, hi⟩).unit l = some (l.get ⟨i, hi⟩) := by
  induction l generalizing i with
  | nil => cases hi
  | cons x rest ih =>
    cases i with
    | zero =>
      have hnone : lastWith x.unit rest = none := by
        apply lastWith_eq_none
        intro e he
        obtain ⟨⟨j, hj⟩, hget⟩ := List.mem_iff_get.mp he
        have hx := hnd (j + 1) (Nat.succ_lt_succ hj) (Nat.succ_pos j)
        rw [show (x :: rest).get ⟨j + 1, Nat.succ_lt_succ hj⟩ = rest.get ⟨j, hj⟩ from rfl,
          hget] at hx
        exact hx
      show lastWith x.unit (x :: rest) = some x
      simp [lastWith, hnone]
    | succ i' =>
      have hi' : i' < rest.length := Nat.lt_of_succ_lt_succ hi
      have hr := ih i' hi' (fun j hj hij =>
        hnd (j + 1) (Nat.succ_lt_succ hj) (Nat.succ_lt_succ hij))
      show lastWith (rest.get ⟨i', hi'⟩).unit (x :: rest) = some (rest.get ⟨i', hi'⟩)
      simp only [List.get_eq_getElem] at hr
      simp [lastWith, hr]

theorem levelMap_fold_lookup (m : ℚ) (u : String) (ups : List UnitPriceEntry) :
    ∀ acc : List (String × String),
      dictGet? (ups.foldl (fun d e => dictSet d e.unit (levelCost e.price m)) acc) u =
        match lastWith u ups with
        | some e => some (levelCost e.price m)
        | none => dictGet? acc u := by
  induction ups with
  | nil => intro acc; rfl
  | cons e rest ih =>
    intro acc
    show dictGet? (rest.foldl _ (dictSet acc e.unit (levelCost e.price m))) u = _
    rw [ih]
    cases hlw : lastWith u rest with
    | some e' => simp [lastWith, hlw]
    | none =>
      simp only [lastWith, hlw]
      rw [dictGet?_dictSet]
      by_cases he : e.unit = u <;> simp [he]

theorem levelMap_lookup (m : ℚ) (u : String) (ups : List UnitPriceEntry) :
    dictGet? (levelMap ups m) u = (lastWith u ups).map (fun e => levelCost e.price m) := by
  rw [levelMap, levelMap_fold_lookup]
  cases lastWith u ups <;> rfl

/-! ## Claim theorems -/

/-- **C6**: every structure accepted by normalization has `usage_levels`
keyed exactly `low, medium, high` and `projected_costs` keyed exactly
`steady, moderate, rapid`, each growth pattern carrying exactly the four
month keys. -/
theorem c6_fixed_keys (pd : PricingData) (n : String) (rs : Option (List String))
    (st : PricingStructure) (h : parse_pricing_data pd n rs = .ok st) :
    st.usage_levels.map Prod.fst = ["low", "medium", "high"] ∧
    st.projected_costs.map Prod.fst = ["steady", "moderate", "rapid"] ∧
    ∀ kv ∈ st.projected_costs,
      kv.2.map Prod.fst = ["Month 1", "Month 3", "Month 6", "Month 12"] := by
  obtain ⟨d, ups, hex, hst⟩ := parse_ok_shape h
  subst hst
  refine ⟨?_, rfl, ?_⟩
  · rw [usage_levels_of_finishParse]
    unfold buildUsageLevels
    by_cases hu : ups.isEmpty <;> simp [hu]
  · intro kv hkv
    rw [projected_of_finishParse] at hkv
    unfold buildProjections at hkv
    simp only [List.mem_cons, List.mem_singleton, List.not_mem_nil, or_false] at hkv
    rcases hkv with hkv | hkv | hkv <;> subst hkv <;> rfl

/-- Witness for **C6** at a concrete input. -/
theorem c6_fixed_keys_witness :
    (finishParse "" [] "S").usage_levels.map Prod.fst = ["low", "medium", "high"] ∧
    (finishParse "" [] "S").projected_costs.map Prod.fst = ["steady", "moderate", "rapid"] ∧
    ∀ kv ∈ (finishParse "" [] "S").projected_costs,
      kv.2.map Prod.fst = ["Month 1", "Month 3", "Month 6", "Month 12"] :=
  c6_fixed_keys ⟨some (.text ""), false⟩ "S" none (finishParse "" [] "S") rfl

/-- **C8**: the normalized `service_description` is never empty; when the
extraction phase leaves it empty the templated default
`provides <service_name> functionality in the AWS cloud` is used. -/
theorem c8_description_nonempty (pd : PricingData) (n : String) (rs : Option (List String))
    (st : PricingStructure) (h : parse_pricing_data pd n rs = .ok st) :
    st.service_description ≠ "" ∧
    (∀ d ups, extractPhase pd n = .ok (d, ups) → d = "" →
      st.service_description = "provides " ++ n ++ " functionality in the AWS cloud") := by
  obtain ⟨d, ups, hex, hst⟩ := parse_ok_shape h
  subst hst
  constructor
  · show (if d = "" then "provides " ++ n ++ " functionality in the AWS cloud" else d) ≠ ""
    by_cases hd : d = ""
    · rw [if_pos hd]
      intro hc
      have hlen := congrArg String.length hc
      rw [String.length_append, String.length_append] at hlen
      have h1 : ("provides " : String).length = 9 := rfl
      have h2 : (" functionality in the AWS cloud" : String).length = 31 := rfl
      have h3 : ("" : String).length = 0 := rfl
      omega
    · rw [if_neg hd]; exact hd
  · intro d' ups' hex' hd'
    rw [hex] at hex'
    have hd : d' = d := by
      have := Except.ok.inj hex'
      exact (congrArg Prod.fst this).symm
    subst hd
    show (if d' = "" then "provides " ++ n ++ " functionality in the AWS cloud" else d') = _
    rw [if_pos hd']

/-- Witness for **C8** at a concrete input (no description pattern
matches the empty text, so the templated default appears). -/
theorem c8_description_nonempty_witness :
    (finishParse "" [] "Svc").service_description ≠ "" ∧
    (∀ d ups, extractPhase ⟨some (.text ""), false⟩ "Svc" = .ok (d, ups) → d = "" →
      (finishParse "" [] "Svc").service_description =
        "provides " ++ "Svc" ++ " functionality in the AWS cloud") :=
  c8_description_nonempty ⟨some (.text ""), false⟩ "Svc" none (finishParse "" [] "Svc") rfl

/-- Core of C4, phrased over the extraction outcome. -/
theorem c4_core (d : String) (n : String) (ups : List UnitPriceEntry)
    (i : ℕ) (hi : i < ups.length)
    (hlast : ∀ j, (hj : j < ups.length) → i < j →
      (ups.get ⟨j, hj⟩).unit ≠ (ups.get ⟨i, hi⟩).unit) :
    (∀ p, pyFloat? (stripMoney (ups.get ⟨i, hi⟩).price) = some p →
      dictGet? ((dictGet? (finishParse d ups n).usage_levels "medium").getD []) (ups.get ⟨i, hi⟩).unit =
        some ("$" ++ fmt2 (p * 1)) ∧
      dictGet? ((dictGet? (finishParse d ups n).usage_levels "high").getD []) (ups.get ⟨i, hi⟩).unit =
        some ("$" ++ fmt2 (p * 2)) ∧
      dictGet? ((dictGet? (finishParse d ups n).usage_levels "low").getD []) (ups.get ⟨i, hi⟩).unit =
        some ("$" ++ fmt2 (p * (1 / 2)))) ∧
    (pyFloat? (stripMoney (ups.get ⟨i, hi⟩).price) = none →
      dictGet? ((dictGet? (finishParse d ups n).usage_levels "medium").getD []) (ups.get ⟨i, hi⟩).unit =
        some "Calculation not available" ∧
      dictGet? ((dictGet? (finishParse d ups n).usage_levels "high").getD []) (ups.get ⟨i, hi⟩).unit =
        some "Calculation not available" ∧
      dictGet? ((dictGet? (finishParse d ups n).usage_levels "low").getD []) (ups.get ⟨i, hi⟩).unit =
        some "Calculation not available") ∧
    (∀ e ∈ ups,
      (dictGet? ((dictGet? (finishParse d ups n).usage_levels "medium").getD []) e.unit).isSome = true ∧
      (dictGet? ((dictGet? (finishParse d ups n).usage_levels "high").getD []) e.unit).isSome = true ∧
      (dictGet? ((dictGet? (finishParse d ups n).usage_levels "low").getD []) e.unit).isSome = true) := by
  cases ups with
  | nil => exact absurd hi (by simp)
  | cons e0 rest =>
    have hmed : (dictGet? (finishParse d (e0 :: rest) n).usage_levels "medium").getD [] =
        levelMap (e0 :: rest) 1 := rfl
    have hhigh : (dictGet? (finishParse d (e0 :: rest) n).usage_levels "high").getD [] =
        levelMap (e0 :: rest) 2 := rfl
    have hlow : (dictGet? (finishParse d (e0 :: rest) n).usage_levels "low").getD [] =
        levelMap (e0 :: rest) (1 / 2) := rfl
    have hlw := lastWith_of_no_later (e0 :: rest) i hi hlast
    refine ⟨?_, ?_, ?_⟩
    · intro p hp
      rw [hmed, hhigh, hlow, levelMap_lookup, levelMap_lookup, levelMap_lookup, hlw]
      simp only [List.get_eq_getElem] at hp
      simp [levelCost, hp]
    · intro hp
      rw [hmed, hhigh, hlow, levelMap_lookup, levelMap_lookup, levelMap_lookup, hlw]
      simp only [List.get_eq_getElem] at hp
      simp [levelCost, hp]
    · intro e' he'
      have hs := lastWith_isSome_of_mem e'.unit (e0 :: rest) e' he' rfl
      rw [hmed, hhigh, hlow, levelMap_lookup, levelMap_lookup, levelMap_lookup]
      cases hlw' : lastWith e'.unit (e0 :: rest) with
      | some ex => simp
      | none => rw [hlw'] at hs; simp at hs

/-- Counterexample to **C4** as stated: the usage-level dicts are keyed
by unit, so a later entry with the same unit overwrites the earlier
binding.  On `Pricing: $1 per GB. GB costs $2. Free Tier` the pipeline
extracts the duplicate-unit entries `(GB, $1)` and `(GB, $2.)`; the
first entry's price parses to `p = 1`, for which the claim demands a
medium cell of `"$" ++ fmt2 (1 * 1) = "$1.00"` at unit `GB`, but the
cell actually holds `"$2.00"` (the second entry's value). -/
theorem c4_per_entry_refuted :
    (parse_pricing_data ⟨some (.text "Pricing: $1 per GB. GB costs $2. Free Tier"), false⟩
        "EC2" none).map
      (fun st => (st.unit_pricing.map (fun e => (e.unit, e.price)),
        dictGet? ((dictGet? st.usage_levels "medium").getD []) "GB")) =
      .ok ([("GB", "$1"), ("GB", "$2.")], some "$2.00") ∧
    pyFloat? (stripMoney "$1") = some 1 ∧
    ("$" ++ fmt2 ((1 : ℚ) * 1)) = "$1.00" ∧
    ("$2.00" : String) ≠ "$1.00" :=
  ⟨by with_unfolding_all rfl, by with_unfolding_all rfl, by with_unfolding_all rfl, by decide⟩

/-- **C4** amended: the scaling property holds per unit, with the value
determined by the **last** entry bearing that unit (a later duplicate
overwrites earlier bindings — the counterexample above forces this
restriction).  For such an entry, a price parsing to `p` yields
`medium = $fmt(p * 1.0)`, `high = $fmt(p * 2.0)` (twice medium's value)
and `low = $fmt(p * 0.5)` (half of medium's value); an unparseable
price yields the sentinel at all three levels; and every entry's unit
is present in all three level dicts, so one failure aborts nothing. -/
theorem c4_level_scaling (pd : PricingData) (n : String) (rs : Option (List String))
    (st : PricingStructure) (h : parse_pricing_data pd n rs = .ok st)
    (i : ℕ) (hi : i < st.unit_pricing.length)
    (hlast : ∀ j, (hj : j < st.unit_pricing.length) → i < j →
      (st.unit_pricing.get ⟨j, hj⟩).unit ≠ (st.unit_pricing.get ⟨i, hi⟩).unit) :
    (∀ p, pyFloat? (stripMoney (st.unit_pricing.get ⟨i, hi⟩).price) = some p →
      dictGet? ((dictGet? st.usage_levels "medium").getD []) (st.unit_pricing.get ⟨i, hi⟩).unit =
        some ("$" ++ fmt2 (p * 1)) ∧
      dictGet? ((dictGet? st.usage_levels "high").getD []) (st.unit_pricing.get ⟨i, hi⟩).unit =
        some ("$" ++ fmt2 (p * 2)) ∧
      dictGet? ((dictGet? st.usage_levels "low").getD []) (st.unit_pricing.get ⟨i, hi⟩).unit =
        some ("$" ++ fmt2 (p * (1 / 2)))) ∧
    (pyFloat? (stripMoney (st.unit_pricing.get ⟨i, hi⟩).price) = none →
      dictGet? ((dictGet? st.usage_levels "medium").getD []) (st.unit_pricing.get ⟨i, hi⟩).unit =
        some "Calculation not available" ∧
      dictGet? ((dictGet? st.usage_levels "high").getD []) (st.unit_pricing.get ⟨i, hi⟩).unit =
        some "Calculation not available" ∧
      dictGet? ((dictGet? st.usage_levels "low").getD []) (st.unit_pricing.get ⟨i, hi⟩).unit =
        some "Calculation not available") ∧
    (∀ e ∈ st.unit_pricing,
      (dictGet? ((dictGet? st.usage_levels "medium").getD []) e.unit).isSome = true ∧
      (dictGet? ((dictGet? st.usage_levels "high").getD []) e.unit).isSome = true ∧
      (dictGet? ((dictGet? st.usage_levels "low").getD []) e.unit).isSome = true) := by
  obtain ⟨d, ups, hex, hst⟩ := parse_ok_shape h
  subst hst
  exact c4_core d n ups i hi hlast

/-- Witness for **C4** on a scraped text with one parseable and one
unparseable price (`$4 per GB` and `AB: $1.2.3.`). -/
theorem c4_level_scaling_witness :
    dictGet? ((dictGet? (finishParse "" [⟨"GB", "$4", none⟩, ⟨"AB", "$1.2.3.", none⟩] "EC2").usage_levels "medium").getD []) "GB" =
      some "$4.00" ∧
    dictGet? ((dictGet? (finishParse "" [⟨"GB", "$4", none⟩, ⟨"AB", "$1.2.3.", none⟩] "EC2").usage_levels "high").getD []) "GB" =
      some "$8.00" ∧
    dictGet? ((dictGet? (finishParse "" [⟨"GB", "$4", none⟩, ⟨"AB", "$1.2.3.", none⟩] "EC2").usage_levels "low").getD []) "GB" =
      some "$2.00" ∧
    dictGet? ((dictGet? (finishParse "" [⟨"GB", "$4", none⟩, ⟨"AB", "$1.2.3.", none⟩] "EC2").usage_levels "medium").getD []) "AB" =
      some "Calculation not available" := by
  have h4 := c4_level_scaling ⟨some (.text "Pricing: $4 per GB. AB: $1.2.3. Free Tier"), false⟩
    "EC2" none (finishParse "" [⟨"GB", "$4", none⟩, ⟨"AB", "$1.2.3.", none⟩] "EC2")
    (by with_unfolding_all rfl) 0 (by decide) (by decide)
  have hAB := c4_level_scaling ⟨some (.text "Pricing: $4 per GB. AB: $1.2.3. Free Tier"), false⟩
    "EC2" none (finishParse "" [⟨"GB", "$4", none⟩, ⟨"AB", "$1.2.3.", none⟩] "EC2")
    (by with_unfolding_all rfl) 1 (by decide) (by decide)
  obtain ⟨hp, -, -⟩ := h4
  obtain ⟨-, hnp, -⟩ := hAB
  have hgb := hp 4 (by with_unfolding_all rfl)
  have hab := hnp (by with_unfolding_all rfl)
  exact ⟨hgb.1.trans (by with_unfolding_all rfl),
    hgb.2.1.trans (by with_unfolding_all rfl),
    hgb.2.2.trans (by with_unfolding_all rfl),
    hab.1⟩

/-- **C5**: the steady-pattern Month-1 projection equals the formatted
baseline, which is the sum of the parseable medium-level costs, or 100
when that sum is zero (in particular when `unit_pricing` is empty). -/
theorem c5_projection_baseline (pd : PricingData) (n : String) (rs : Option (List String))
    (st : PricingStructure) (h : parse_pricing_data pd n rs = .ok st) :
    dictGet? ((dictGet? st.projected_costs "steady").getD []) "Month 1" =
      some ("$" ++ fmt2 (if sumDollarCosts ((dictGet? st.usage_levels "medium").getD []) = 0
        then 100 else sumDollarCosts ((dictGet? st.usage_levels "medium").getD []))) := by
  obtain ⟨d, ups, hex, hst⟩ := parse_ok_shape h
  subst hst
  rw [projected_of_finishParse, usage_levels_of_finishParse,
    dictGet?_buildProjections_steady, Option.getD_some, dictGet?_monthlyCosts_m1]
  norm_num

/-- Witness for **C5**: the empty-input structure projects
`steady / Month 1 = $100.00`. -/
theorem c5_projection_baseline_witness :
    dictGet? ((dictGet? (finishParse "" [] "S").projected_costs "steady").getD []) "Month 1" =
      some "$100.00" := by
  have h := c5_projection_baseline ⟨some (.text ""), false⟩ "S" none (finishParse "" [] "S") rfl
  exact h.trans (by with_unfolding_all rfl)

/-- **C10**: the handler's result is a function of `pricing_data`,
`service_name` and `format` alone (the `related_services`,
`pricing_model`, `assumptions`, `exclusions` and `detailed_cost_data`
event fields never influence it), and every normalized structure has an
empty `assumptions` list, so the markdown Assumptions section body is
always empty. -/
theorem c10_ignored_fields :
    (∀ e1 e2 : Event, e1.pricing_data = e2.pricing_data →
      e1.service_name = e2.service_name → e1.format = e2.format →
      lambda_handler e1 = lambda_handler e2) ∧
    (∀ pd n rs st, parse_pricing_data pd n rs = .ok st →
      st.assumptions = [] ∧ renderedAssumptions st = "") := by
  constructor
  · intro e1 e2 h1 h2 h3
    cases e1
    cases e2
    simp only at h1 h2 h3
    subst h1; subst h2; subst h3
    rfl
  · intro pd n rs st h
    obtain ⟨d, ups, hex, hst⟩ := parse_ok_shape h
    subst hst
    exact ⟨rfl, rfl⟩

/-- **C7**: each recommendation list has at most five entries; a Bedrock
service name puts the prompt-optimization item at the front of the
immediate list (so it survives truncation); the returned lists are the
first five entries, in order, of the augmented lists. -/
theorem c7_recommendation_bounds (names : List String) :
    (generate_well_architected_recommendations names).1.length ≤ 5 ∧
    (generate_well_architected_recommendations names).2.length ≤ 5 ∧
    generate_well_architected_recommendations names =
      ((waAugmented names).1.take 5, (waAugmented names).2.take 5) ∧
    (hasKeyword "bedrock" names = true →
      (generate_well_architected_recommendations names).1.head? =
        some "Optimize prompt engineering to reduce token usage in Bedrock models") := by
  refine ⟨?_, ?_, rfl, ?_⟩
  · rw [generate_well_architected_recommendations, List.length_take]
    exact min_le_left _ _
  · rw [generate_well_architected_recommendations, List.length_take]
    exact min_le_left _ _
  · intro hb
    unfold generate_well_architected_recommendations waAugmented
    by_cases hl : hasKeyword "lambda" names <;>
      simp [hb, hl, List.take_succ_cons, List.head?_cons]

/-- Witness for **C7** with every augmentation rule firing (the Bedrock
hypothesis discharged concretely). -/
theorem c7_recommendation_bounds_witness :
    (generate_well_architected_recommendations ["Bedrock", "Lambda", "S3", "DynamoDB"]).1.length ≤ 5 ∧
    (generate_well_architected_recommendations ["Bedrock", "Lambda", "S3", "DynamoDB"]).2.length ≤ 5 ∧
    (generate_well_architected_recommendations ["Bedrock", "Lambda", "S3", "DynamoDB"]).1.head? =
      some "Optimize prompt engineering to reduce token usage in Bedrock models" :=
  ⟨(c7_recommendation_bounds ["Bedrock", "Lambda", "S3", "DynamoDB"]).1,
   (c7_recommendation_bounds ["Bedrock", "Lambda", "S3", "DynamoDB"]).2.1,
   (c7_recommendation_bounds ["Bedrock", "Lambda", "S3", "DynamoDB"]).2.2.2 (by decide)⟩

/-- Counterexample to **C9** as stated: an event whose `pricing_data` is
present (an empty dict) and whose `service_name` is present and
non-empty does not produce a success result — Python truthiness treats
the empty dict like an absent parameter. -/
theorem c9_falsy_present_counterexample :
    (Event.mk (some ⟨none, false⟩) (some "S3") none none none none none none).pricing_data.isSome = true ∧
    (Event.mk (some ⟨none, false⟩) (some "S3") none none none none none none).service_name.isSome = true ∧
    ∀ r m, lambda_handler
      (Event.mk (some ⟨none, false⟩) (some "S3") none none none none none none) ≠ .success r m := by
  refine ⟨rfl, rfl, ?_⟩
  intro r m hc
  have hv : lambda_handler
      (Event.mk (some ⟨none, false⟩) (some "S3") none none none none none none) =
      .err "Missing pricing_data parameter" := rfl
  rw [hv] at hc
  exact LambdaResult.noConfusion hc

/-- **C9** amended: the handler reports the missing field when
`pricing_data` (respectively `service_name`) is absent **or falsy**,
returns the success envelope when both are truthy and generation
succeeds, and converts an escaping generation error into the single
generic error result carrying its text — by construction it returns one
of these envelopes on every event and never propagates an exception. -/
theorem c9_boundary_behavior (e : Event) :
    (pdTruthy e.pricing_data = false → lambda_handler e = .err "Missing pricing_data parameter") ∧
    (pdTruthy e.pricing_data = true → snTruthy e.service_name = false →
      lambda_handler e = .err "Missing service_name parameter") ∧
    (∀ pd sn, e.pricing_data = some pd → e.service_name = some sn →
      pdTruthy (some pd) = true → snTruthy (some sn) = true →
      (∀ rep, generate_cost_report pd sn e.related_services (e.format.getD "markdown") = .ok rep →
        lambda_handler e = .success rep ("Generated cost report for " ++ sn)) ∧
      (∀ msg, generate_cost_report pd sn e.related_services (e.format.getD "markdown") = .error msg →
        lambda_handler e = .err ("Error generating cost report: " ++ msg))) := by
  refine ⟨?_, ?_, ?_⟩
  · intro h
    simp [lambda_handler, h]
  · intro h1 h2
    simp [lambda_handler, h1, h2]
  · intro pd sn hpd hsn h1 h2
    constructor
    · intro rep hrep
      simp [lambda_handler, hpd, hsn, h1, h2, hrep]
    · intro msg hmsg
      simp [lambda_handler, hpd, hsn, h1, h2, hmsg]

/-- Witness for **C9** (amended) on concrete events: an absent
`pricing_data` is named, and a full success envelope is produced for a
valid event. -/
theorem c9_boundary_behavior_witness :
    lambda_handler (Event.mk none none none none none none none none) =
      .err "Missing pricing_data parameter" ∧
    lambda_handler (Event.mk (some ⟨some (.text ""), false⟩) (some "S") none none none none none none) =
      .success (markdownReport (finishParse "" [] "S") "S") ("Generated cost report for " ++ "S") :=
  ⟨(c9_boundary_behavior (Event.mk none none none none none none none none)).1 rfl,
   ((c9_boundary_behavior
      (Event.mk (some ⟨some (.text ""), false⟩) (some "S") none none none none none none)).2.2
      ⟨some (.text ""), false⟩ "S" rfl rfl rfl (by decide)).1
      (markdownReport (finishParse "" [] "S") "S") (by with_unfolding_all rfl)⟩

/-- The scraped text of the spec's normalization scenario. -/
def c3Text : String :=
  "Lambda is a fully managed service that runs code without servers. Pricing: Request costs $0.20 per 1M requests. Free Tier includes 1M requests."

/-- Counterexample to **C3** as stated: the scenario text does not yield
a single-entry `unit_pricing` — the phrase `Request costs $0.20` also
matches the second price pattern, so two entries accumulate. -/
theorem c3_single_entry_refuted :
    (parse_pricing_data ⟨some (.text c3Text), false⟩ "Lambda" none).map
      (fun st => st.unit_pricing) ≠ .ok [⟨"1M requests", "$0.20", none⟩] := by
  intro hc
  have hv : (parse_pricing_data ⟨some (.text c3Text), false⟩ "Lambda" none).map
      (fun st => st.unit_pricing) =
      .ok [⟨"1M requests", "$0.20", none⟩, ⟨"Request", "$0.20", none⟩] := by
    with_unfolding_all rfl
  rw [hv] at hc
  simp at hc

/-- **C3** amended: the scenario yields the description
`runs code without servers` and exactly two entries, the first from the
`"$<price> per <unit>"` pattern and the second (`unit = "Request"`) from
the `"<unit> costs $<price>"` pattern, in pattern order. -/
theorem c3_scenario_actual :
    (parse_pricing_data ⟨some (.text c3Text), false⟩ "Lambda" none).map
      (fun st => (st.service_description, st.unit_pricing)) =
      .ok ("runs code without servers",
        [⟨"1M requests", "$0.20", none⟩, ⟨"Request", "$0.20", none⟩]) := by
  with_unfolding_all rfl

/-- **C1** (code bug): the report path never invokes the recommendation
engine — the structure reaches the renderer with both recommendation
lists still empty, so the Immediate Actions and Best Practices section
bodies render empty, even though `generate_well_architected_recommendations`
for the same service would return the three base items (plus the Bedrock
augmentation). -/
theorem c1_rendered_recommendations_empty :
    (parse_pricing_data ⟨some (.text ""), false⟩ "Bedrock" none).map
      (fun st => (st.recommendations_immediate, st.recommendations_best_practices,
        renderedImmediate st, renderedBestPractices st)) = .ok ([], [], "", "") ∧
    generate_well_architected_recommendations ["Bedrock"] =
      (["Optimize prompt engineering to reduce token usage in Bedrock models",
        "Right-size resources based on actual usage patterns",
        "Implement cost allocation tags to track spending by component",
        "Set up AWS Budgets alerts to monitor costs"],
       ["Regularly review and analyze cost patterns with AWS Cost Explorer",
        "Consider reserved capacity options for predictable workloads",
        "Implement automated scaling based on demand",
        "Monitor runtime metrics with CloudWatch filtered by application inference profile ARN"]) :=
  ⟨by with_unfolding_all rfl, by with_unfolding_all rfl⟩

/-- **C2** (code bug): on a structure whose level sums are 1, 2 and 4
dollars (so the spec's table would read `$1.00/month | $2.00/month |
$4.00/month`), the rendered usage-cost-scaling row shows `Varies` in all
three cells: the accumulators are never updated because `total +=
cost_value` rebinds the tuple-unpacked loop variable. -/
theorem c2_usage_table_always_varies :
    (parse_pricing_data ⟨some (.text "Pricing: $2 per GB. Free Tier"), false⟩ "EC2" none).map
      (fun st => (usageCostTable st, intendedLevelTotal st "low", intendedLevelTotal st "medium",
        intendedLevelTotal st "high")) =
      .ok ("| Service | Low Usage | Medium Usage | High Usage |\n|---------|------------|--------------|------------|\n| EC2 | Varies | Varies | Varies |\n",
        1, 2, 4) := by
  with_unfolding_all rfl

/-- Witness for **C10**: two events differing in all four ignored fields
produce the same result, and a concrete normalized structure renders an
empty Assumptions body. -/
theorem c10_ignored_fields_witness :
    lambda_handler ⟨some ⟨some (.text "Pricing: $2 per GB. Free Tier"), false⟩, some "S3",
        none, some "ON DEMAND", some ["a1", "a2"], none, none, none⟩ =
      lambda_handler ⟨some ⟨some (.text "Pricing: $2 per GB. Free Tier"), false⟩, some "S3",
        some ["EC2"], some "RESERVED", none, some ["x"], some .jnull, none⟩ ∧
    (finishParse "" [] "S").assumptions = [] ∧ renderedAssumptions (finishParse "" [] "S") = "" :=
  ⟨c10_ignored_fields.1 _ _ rfl rfl rfl,
   c10_ignored_fields.2 ⟨some (.text ""), false⟩ "S" none (finishParse "" [] "S") rfl⟩

end AwsCostReport
